import Mathlib

/-!
# Verification of the fruit-slicing arcade core

Shallow embedding of the game's core (geometry utilities, the shared
`GameObject` physics/lifecycle model, the `Fruit`/`FruitSlice`/`Particle`/
`ComboSplash` entity variants, the `GameState` registry, the spawn scheduler,
the collision pipeline and the fixed-timestep main loop), together with
theorems settling the specification's claims about it.

Conventions of the embedding:
* JavaScript numbers are modelled as exact rationals (`ℚ`); integer counters
  as `ℤ`/`ℕ`.  `Math.hypot d1 d2 ≤ r` is encoded square-free as
  `0 ≤ r ∧ d1^2 + d2^2 ≤ r^2`, which is equivalent over the reals.
* Sources of ambient data (`performance.now()`, `Date.now()`, `Math.random`,
  canvas size, the effects manager's live-effect count) are passed in as
  explicit arguments.
* Purely visual fields that no game logic ever reads (shadow colours, blur
  amounts, particle colours, the fps running average) are not carried in the
  state records; every field that any modelled function reads or writes is.
-/

namespace FruitNinja

/-! ## Constants (src/scripts/core/Constants.js) -/

def GRAVITY : ℚ := 1000
def CANVAS_OVERFLOW_THRESHOLD : ℚ := 100
def INITIAL_SPAWN_INTERVAL : ℚ := 1000
def MIN_SPAWN_INTERVAL : ℚ := 300
def COMBO_THRESHOLD : ℚ := 800

def DIFFICULTY_INCREASE_RATE : ℚ := 10

def SLICE_LIFE_DURATION : ℚ := 1
def JUICE_PARTICLE_LIFE : ℚ := 1
def BOMB_EXPLOSION_LIFE : ℚ := 4/5
def WALL_SPLASH_LIFE : ℚ := 1
def COMBO_SPLASH_LIFE : ℚ := 1

/-! ## Geometry utilities (GeometryUtils) -/

/-- Source `GeometryUtils.clamp(value, min, max)`: `Math.max(min, Math.min(max, value))`. -/
def clamp (value lo hi : ℚ) : ℚ := max lo (min hi value)

/-- Source `GeometryUtils.lerp(start, end, t)`. -/
def lerp (a b t : ℚ) : ℚ := a + (b - a) * t

/-- Squared distance from the circle centre `(cx, cy)` to the point of the
segment `(x1,y1)-(x2,y2)` at parameter `t`. -/
def segDistSq (x1 y1 x2 y2 cx cy t : ℚ) : ℚ :=
  (x1 + t * (x2 - x1) - cx) ^ 2 + (y1 + t * (y2 - y1) - cy) ^ 2

/-- The clamped projection parameter computed by
`GeometryUtils.lineIntersectsCircle`:
`t = ((cx-x1)*dx + (cy-y1)*dy) / (dx*dx + dy*dy)` clamped to `[0,1]`. -/
def closestT (x1 y1 x2 y2 cx cy : ℚ) : ℚ :=
  let dx := x2 - x1
  let dy := y2 - y1
  max 0 (min 1 (((cx - x1) * dx + (cy - y1) * dy) / (dx * dx + dy * dy)))

/-- Source `GeometryUtils.lineIntersectsCircle(x1, y1, x2, y2, cx, cy, radius)`.

For a degenerate segment (`dx*dx + dy*dy === 0`) the JavaScript source divides
`0/0`, producing `NaN`; the `NaN` propagates through `Math.max`/`Math.min`,
the closest-point coordinates and `Math.hypot`, and the final comparison
`NaN <= radius` evaluates to `false`.  That branch is made explicit here.
Otherwise the source computes the clamped projection `t`, the closest point,
and returns `Math.hypot(closestX-cx, closestY-cy) <= radius`, encoded
square-free as `0 ≤ radius ∧ dist² ≤ radius²`. -/
def lineIntersectsCircle (x1 y1 x2 y2 cx cy radius : ℚ) : Bool :=
  let dx := x2 - x1
  let dy := y2 - y1
  if dx * dx + dy * dy = 0 then
    false
  else
    let t := max 0 (min 1 (((cx - x1) * dx + (cy - y1) * dy) / (dx * dx + dy * dy)))
    let closestX := x1 + t * dx
    let closestY := y1 + t * dy
    decide (0 ≤ radius ∧ (closestX - cx) ^ 2 + (closestY - cy) ^ 2 ≤ radius ^ 2)

/-- Source `GeometryUtils.distance(x1,y1,x2,y2) ≤ d`, encoded square-free. -/
def distanceLE (x1 y1 x2 y2 d : ℚ) : Bool :=
  decide (0 ≤ d ∧ (x2 - x1) ^ 2 + (y2 - y1) ^ 2 ≤ d ^ 2)

/-- Source `GeometryUtils.isCircleOutsideCanvas(x, y, radius, w, h, threshold)`. -/
def isCircleOutsideCanvas (x y radius canvasWidth canvasHeight threshold : ℚ) : Bool :=
  decide (x + radius < -threshold) ||
  decide (x - radius > canvasWidth + threshold) ||
  decide (y + radius < -threshold) ||
  decide (y - radius > canvasHeight + threshold)

/-! ## Base entity (GameObject) -/

/-- The shared kinematic/lifecycle state of `GameObject`. -/
structure GameObject where
  x : ℚ
  y : ℚ
  vx : ℚ
  vy : ℚ
  rotation : ℚ
  rotationSpeed : ℚ
  life : ℚ
  maxLife : ℚ
  isAlive : Bool
  deriving DecidableEq

/-- Source `GameObject.update(deltaTime)`: integrate position by velocity, apply
gravity to `vy`, advance rotation, and when a positive life cap is set
decrement `life`, flipping `isAlive` to `false` at the zero crossing. -/
def GameObject.update (o : GameObject) (dt : ℚ) : GameObject :=
  let o := { o with
    x := o.x + o.vx * dt
    y := o.y + o.vy * dt
    vy := o.vy + GRAVITY * dt
    rotation := o.rotation + o.rotationSpeed * dt }
  if o.maxLife > 0 then
    let life := o.life - dt
    if life ≤ 0 then { o with life := life, isAlive := false }
    else { o with life := life }
  else o

/-- Source `GameObject.shouldRemove(w, h)`: not alive, or fallen past the bottom
overflow threshold. -/
def GameObject.shouldRemove (o : GameObject) (canvasWidth canvasHeight : ℚ) : Bool :=
  !o.isAlive || decide (o.y > canvasHeight + CANVAS_OVERFLOW_THRESHOLD)

/-- Source `GameObject.destroy()`: explicit kill. -/
def GameObject.destroy (o : GameObject) : GameObject :=
  { o with isAlive := false }

/-! ## Fruit / bomb variant (src/scripts/entities/Fruit.js) -/

inductive EntityKind where
  | fruit
  | bomb
  deriving DecidableEq

/-- The `Fruit` entity (fruits and bombs). -/
structure Fruit extends GameObject where
  kind : EntityKind
  emoji : String
  radius : ℚ
  sliced : Bool
  deriving DecidableEq

/-- Source `Fruit.update(deltaTime)`: `super.update(deltaTime)` followed by
`this.life = this.maxLife; this.isAlive = true;` — the source comments
"Fruits don't have limited lifespan, so reset life to prevent
auto-destruction". -/
def Fruit.update (f : Fruit) (dt : ℚ) : Fruit :=
  let g := f.toGameObject.update dt
  { f with toGameObject := { g with life := g.maxLife, isAlive := true } }

/-- Source `Fruit.shouldRemove(w, h)`: full circle outside all four canvas edges
check, with the overflow threshold; life plays no part. -/
def Fruit.shouldRemove (f : Fruit) (canvasWidth canvasHeight : ℚ) : Bool :=
  isCircleOutsideCanvas f.x f.y f.radius canvasWidth canvasHeight
    CANVAS_OVERFLOW_THRESHOLD

/-- Source `Fruit.containsPoint(px, py)`. -/
def Fruit.containsPoint (f : Fruit) (px py : ℚ) : Bool :=
  distanceLE f.x f.y px py f.radius

/-- Source `Fruit.intersectsLine(x1, y1, x2, y2)`. -/
def Fruit.intersectsLine (f : Fruit) (x1 y1 x2 y2 : ℚ) : Bool :=
  lineIntersectsCircle x1 y1 x2 y2 f.x f.y f.radius

/-- Source `Fruit.getBounds()` as (left, top, right, bottom). -/
def Fruit.bounds (f : Fruit) : ℚ × ℚ × ℚ × ℚ :=
  (f.x - f.radius, f.y - f.radius, f.x + f.radius, f.y + f.radius)

/-! ## Slice-half and particle variants (FruitSlice, Particle) -/

/-- The `FruitSlice` entity: one half of a sliced fruit. -/
structure FruitSlice extends GameObject where
  emoji : String
  halfSide : Bool
  size : ℚ
  deriving DecidableEq

/-- Source `FruitSlice.update(deltaTime)` just calls `super.update(deltaTime)`. -/
def FruitSlice.update (s : FruitSlice) (dt : ℚ) : FruitSlice :=
  { s with toGameObject := s.toGameObject.update dt }

/-- Source `FruitSlice.shouldRemove(w, h)`: life expired, fallen below, or past
either horizontal overflow threshold. -/
def FruitSlice.shouldRemove (s : FruitSlice) (canvasWidth canvasHeight : ℚ) : Bool :=
  !s.isAlive ||
  decide (s.y > canvasHeight + CANVAS_OVERFLOW_THRESHOLD) ||
  decide (s.x < -CANVAS_OVERFLOW_THRESHOLD) ||
  decide (s.x > canvasWidth + CANVAS_OVERFLOW_THRESHOLD)

inductive ParticleKind where
  | juice
  | explosion
  | wallSplash
  deriving DecidableEq

/-- The `Particle` entity (juice, explosion, wall-splash sub-kinds). -/
structure Particle extends GameObject where
  kind : ParticleKind
  deriving DecidableEq

/-- Source `Particle.update(deltaTime)`: `super.update` plus type-specific physics
(juice gets extra half-strength gravity, wall splashes zero their velocity). -/
def Particle.update (p : Particle) (dt : ℚ) : Particle :=
  let g := p.toGameObject.update dt
  match p.kind with
  | ParticleKind.juice =>
      { p with toGameObject := { g with vy := g.vy + GRAVITY * dt * (1/2) } }
  | ParticleKind.wallSplash =>
      { p with toGameObject := { g with vx := 0, vy := 0 } }
  | ParticleKind.explosion =>
      { p with toGameObject := g }

/-- Source `Particle.shouldRemove(w, h)`: life expiry always removes; wall splashes
are never removed by position; other particles additionally remove on
vertical or horizontal overflow. -/
def Particle.shouldRemove (p : Particle) (canvasWidth canvasHeight : ℚ) : Bool :=
  if !p.isAlive then true
  else if p.kind = ParticleKind.wallSplash then false
  else
    decide (p.y > canvasHeight + CANVAS_OVERFLOW_THRESHOLD) ||
    decide (p.x < -CANVAS_OVERFLOW_THRESHOLD) ||
    decide (p.x > canvasWidth + CANVAS_OVERFLOW_THRESHOLD)

/-! ## Combo-text variant (ComboSplash) -/

/-- The `ComboSplash` entity (animated combo text). -/
structure ComboSplash extends GameObject where
  text : String
  scale : ℚ
  targetScale : ℚ
  pulseIntensity : ℚ
  deriving DecidableEq

/-- Source `ComboSplash.update(deltaTime)`: `super.update` then the scale animation
(grow, pulse, shrink) keyed to life progress.  The pulsing phase multiplies
`pulseIntensity` by `Math.sin(pulseTime * π * 4)`; that transcendental sine
value is supplied as the explicit argument `sinPulse`. -/
def ComboSplash.update (c : ComboSplash) (dt sinPulse : ℚ) : ComboSplash :=
  let g := c.toGameObject.update dt
  let progress := 1 - g.life / g.maxLife
  let scale :=
    if progress < 3/10 then lerp 1 c.targetScale (progress / (3/10))
    else if progress < 7/10 then c.targetScale + sinPulse * c.pulseIntensity
    else lerp c.targetScale (1/2) ((progress - 7/10) / (3/10))
  { c with toGameObject := g, scale := scale }

/-- Source `ComboSplash.shouldRemove(w, h)`: only life expiry, never position. -/
def ComboSplash.shouldRemove (c : ComboSplash) (canvasWidth canvasHeight : ℚ) : Bool :=
  !c.isAlive

/-! ## Registry (GameState) -/

/-- A persisted high-score entry `{score, date}`. -/
structure HighScoreEntry where
  score : ℤ
  date : ℤ
  deriving DecidableEq

/-- Descending order on high-score entries, as established by the source's
comparator `(a, b) => b.score - a.score`. -/
def hsDesc (a b : HighScoreEntry) : Prop := b.score ≤ a.score

instance : DecidableRel hsDesc := fun a b => inferInstanceAs (Decidable (b.score ≤ a.score))

instance : IsTotal HighScoreEntry hsDesc := ⟨fun a b => le_total b.score a.score⟩

instance : IsTrans HighScoreEntry hsDesc := ⟨fun _ _ _ hab hbc => le_trans hbc hab⟩

/-- A gesture-trail sample `{x, y, t}`. -/
structure SwipePoint where
  x : ℚ
  y : ℚ
  t : ℚ
  deriving DecidableEq

/-- The `GameState` registry: entity collections, score/combo bookkeeping,
timing, input state and persisted scores. -/
structure GameState where
  score : ℤ
  gameOver : Bool
  elapsedTime : ℚ
  fruits : List Fruit
  slices : List FruitSlice
  bombExplosions : List Particle
  juiceParticles : List Particle
  wallSplashes : List Particle
  comboSplashes : List ComboSplash
  lastTime : Option ℚ
  lastSpawnTime : ℚ
  lastSliceTime : ℚ
  lastSwipeSoundTime : ℚ
  comboCount : ℤ
  spawnInterval : ℚ
  lastComboSoundCount : ℤ
  swipePoints : List SwipePoint
  isSwiping : Bool
  bestScore : ℤ
  highScores : List HighScoreEntry
  deriving DecidableEq

/-- Source `GameState.reset()`.  `performance.now()` is the argument `now`. -/
def GameState.reset (s : GameState) (now : ℚ) : GameState :=
  { s with
    score := 0
    gameOver := false
    elapsedTime := 0
    fruits := []
    slices := []
    bombExplosions := []
    juiceParticles := []
    wallSplashes := []
    comboSplashes := []
    lastTime := none
    lastSpawnTime := now
    lastSliceTime := 0
    lastSwipeSoundTime := 0
    comboCount := 0
    spawnInterval := INITIAL_SPAWN_INTERVAL
    lastComboSoundCount := 0
    swipePoints := []
    isSwiping := false }

/-- Source `GameState.updateDifficulty()`. -/
def GameState.updateDifficulty (s : GameState) : GameState :=
  { s with spawnInterval :=
      (max MIN_SPAWN_INTERVAL
        (INITIAL_SPAWN_INTERVAL - s.elapsedTime * DIFFICULTY_INCREASE_RATE)) }

/-- Source `GameState.updateComboStatus()`; `performance.now()` is `now`. -/
def GameState.updateComboStatus (s : GameState) (now : ℚ) : GameState :=
  if now - s.lastSliceTime > COMBO_THRESHOLD then
    { s with comboCount := 0, lastComboSoundCount := 0 }
  else s

/-- Source `GameState.registerSlice()`; `performance.now()` is `now`.  Within the
combo window the counter increments, otherwise it resets to 1; the slice
timestamp is recorded and the post-increment combo value is added to the
score. -/
def GameState.registerSlice (s : GameState) (now : ℚ) : GameState :=
  let comboCount := if now - s.lastSliceTime < COMBO_THRESHOLD then s.comboCount + 1 else 1
  { s with
    comboCount := comboCount
    lastSliceTime := now
    score := s.score + comboCount }

/-- Source `GameState.saveHighScore(score)`: push a `{score, date}` entry, sort
descending by score, keep the top 10.  `Date.now()` is the argument `date`. -/
def GameState.saveHighScore (s : GameState) (score date : ℤ) : GameState :=
  { s with highScores :=
      (List.insertionSort hsDesc (s.highScores ++ [⟨score, date⟩])).take 10 }

/-- Source `GameState.triggerGameOver()`: set the flag, update the best score when
beaten, then append a high-score entry for the session score. -/
def GameState.triggerGameOver (s : GameState) (date : ℤ) : GameState :=
  GameState.saveHighScore
    { s with
      gameOver := true
      bestScore := if s.score > s.bestScore then s.score else s.bestScore }
    s.score date

/-- Source `GameState.getDisplayCombo()`: the combo count when ≥ 2, else `null`. -/
def GameState.getDisplayCombo (s : GameState) : Option ℤ :=
  if s.comboCount ≥ 2 then some s.comboCount else none

/-! ## Fruit slicing (Fruit.slice) -/

/-- The object returned by `Fruit.slice()` when the fruit was not yet sliced. -/
structure SliceResult where
  kind : EntityKind
  px : ℚ
  py : ℚ
  success : Bool
  deriving DecidableEq

/-- Source `Fruit.slice()`: `null` (and no state change) when already sliced;
otherwise set `sliced`, register the slice with the registry, and for a bomb
additionally trigger game over.  Returns the slice result together with the
updated fruit and registry.  `performance.now()` is `now` and `Date.now()`
(used by the high-score save inside `triggerGameOver`) is `date`. -/
def Fruit.slice (f : Fruit) (gs : GameState) (now : ℚ) (date : ℤ) :
    Option SliceResult × Fruit × GameState :=
  if f.sliced then (none, f, gs)
  else
    let f := { f with sliced := true }
    let gs := gs.registerSlice now
    match f.kind with
    | EntityKind.bomb =>
        (some ⟨EntityKind.bomb, f.x, f.y, false⟩, f, gs.triggerGameOver date)
    | EntityKind.fruit =>
        (some ⟨EntityKind.fruit, f.x, f.y, true⟩, f, gs)

/-! ## Spawn scheduler (src/scripts/spawning/SpawnManager.js) -/

/-- The hard cap on concurrently live fruits (`const fruitCap = 18`). -/
def fruitCap : ℕ := 18

/-- The pressure-bucket slowdown multiplier from `SpawnManager.update`:
`pressure > 150 ? 2.0 : pressure > 100 ? 1.5 : pressure > 60 ? 1.25 : 1.0`. -/
def pressureFactor (pressure : ℚ) : ℚ :=
  if pressure > 150 then 2
  else if pressure > 100 then 3/2
  else if pressure > 60 then 5/4
  else 1

/-- The spawn scheduler's own state. -/
structure SpawnManager where
  lastSpawnTime : ℚ
  spawnTimer : ℚ
  baseSpawnRate : ℚ
  currentSpawnRate : ℚ
  deriving DecidableEq

/-- Source `SpawnManager.spawnItem()`: silently skip when the hard fruit cap is
already reached, otherwise push one new fruit.  The randomly constructed
fruit (`Fruit.createRandom`) is supplied as `newFruit`. -/
def SpawnManager.spawnItem (gs : GameState) (newFruit : Fruit) : GameState :=
  if gs.fruits.length ≥ fruitCap then gs
  else { gs with fruits := gs.fruits ++ [newFruit] }

/-- Source `SpawnManager.updateDifficulty()`: recompute the difficulty-derived
interval and mirror it into the registry's `spawnInterval`. -/
def SpawnManager.updateDifficulty (m : SpawnManager) (gs : GameState) :
    SpawnManager × GameState :=
  let rate := max MIN_SPAWN_INTERVAL
    (m.baseSpawnRate - gs.elapsedTime * DIFFICULTY_INCREASE_RATE)
  ({ m with currentSpawnRate := rate }, { gs with spawnInterval := rate })

/-- Source `SpawnManager.update(deltaTime)`: no-op when game over; otherwise advance
the spawn timer by `dt·1000` scaled by the inverse pressure factor, recompute
difficulty, and when the timer has reached the current interval call
`spawnItem` (which may silently skip at the cap) and reset the timer to zero.
`effectsManager.getActiveEffectCount()` is `activeEffects`,
`performance.now()` is `now`, and the randomly constructed fruit is
`newFruit`.  (The special spawn-pattern branch is a hard-coded early return
in the source.) -/
def SpawnManager.update (m : SpawnManager) (gs : GameState)
    (activeEffects dt now : ℚ) (newFruit : Fruit) : SpawnManager × GameState :=
  if gs.gameOver then (m, gs)
  else
    let pressure := (gs.fruits.length : ℚ) * 2 + activeEffects * (1/4)
    let m := { m with spawnTimer :=
      (m.spawnTimer + dt * 1000 * (1 / pressureFactor pressure)) }
    let (m, gs) := m.updateDifficulty gs
    if m.spawnTimer ≥ m.currentSpawnRate ∧ m.currentSpawnRate > 0 then
      ({ m with spawnTimer := 0, lastSpawnTime := now },
        SpawnManager.spawnItem gs newFruit)
    else (m, gs)

/-- Source `SpawnManager.forceSpawn()`: bypass the timer, call `spawnItem` (still
subject to the fruit cap) and reset the timer. -/
def SpawnManager.forceSpawn (m : SpawnManager) (gs : GameState)
    (newFruit : Fruit) : SpawnManager × GameState :=
  ({ m with spawnTimer := 0 }, SpawnManager.spawnItem gs newFruit)

/-! ## Main loop timing (GameEngine.gameLoop)

The fixed-timestep schedule of `GameEngine.gameLoop` is embedded with the
per-step update pipeline abstracted to a step count: the returned pair
`(updates, renders)` counts how many fixed-step `update(step)` calls and how
many `render()` calls the callback performs, in that order (all updates run
before the single render).  The fps running-average bookkeeping
(`updatePerformanceMetrics`), which no control flow reads, is omitted. -/

/-- Source `this._fixedDelta = 1/120`. -/
def fixedDelta : ℚ := 1/120

/-- Source `const maxIterations = 8`. -/
def maxIterations : ℕ := 8

/-- The engine state read and written by `gameLoop`. -/
structure GameEngine where
  isRunning : Bool
  isPaused : Bool
  lastFrameTime : Option ℚ
  accumulator : ℚ
  frameCount : ℕ
  deriving DecidableEq

/-- The `while (accumulator >= step && iterations < maxIterations)` loop:
returns the remaining accumulator and the number of iterations run, given the
remaining iteration budget. -/
def stepLoop : ℕ → ℚ → ℚ × ℕ
  | 0, acc => (acc, 0)
  | fuel + 1, acc =>
    if acc ≥ fixedDelta then
      let r := stepLoop fuel (acc - fixedDelta)
      (r.1, r.2 + 1)
    else (acc, 0)

/-- Source `GameEngine.gameLoop(timestamp)` (timing skeleton): early-out when
paused; on the first callback after start/resume (`lastFrameTime` unset) just
record the baseline and return; otherwise compute the wall-clock delta,
clamp it to `1/15` s, add it to the accumulator, run at most `maxIterations`
fixed steps, and render once.  Returns the new engine state, the number of
fixed-step updates, and the number of renders. -/
def GameEngine.gameLoop (e : GameEngine) (timestamp : ℚ) : GameEngine × ℕ × ℕ :=
  if e.isPaused then (e, 0, 0)
  else
    match e.lastFrameTime with
    | none => ({ e with lastFrameTime := some timestamp }, 0, 0)
    | some last =>
      let deltaTime := (timestamp - last) / 1000
      let deltaTime := min deltaTime (1/15)
      let (acc, n) := stepLoop maxIterations (e.accumulator + deltaTime)
      ({ e with
          lastFrameTime := some timestamp
          accumulator := acc
          frameCount := e.frameCount + 1 }, n, 1)

/-- Source `GameEngine.resumeGame()` on a running engine: unpause and discard the
stale frame-time baseline. -/
def GameEngine.resumeGame (e : GameEngine) : GameEngine :=
  if e.isRunning then { e with isPaused := false, lastFrameTime := none }
  else e

/-! ## Collision pipeline (CollisionDetector)

Fruits are identified by their index in `gameState.fruits`; the JavaScript
`processedCollisions` set of object references becomes a list of indices.
The visual/audio side effects of a hit (`effectsManager.*`, screen shake,
sounds) touch only the effect collections and are owned by a collaborator;
they are not part of the collision state modelled here.  The combo-sound
bookkeeping of `handleFruitSlice`, which writes `lastComboSoundCount` back
into the registry, is modelled.  A run is summarised by the final registry,
the processed set, and the `log` of fruit indices for which
`handleFruitCollision` was invoked (most recent first). -/

/-- Source `const K = 6` — only the last K segments of the trail are tested. -/
def segmentWindowK : ℕ := 6

/-- Source `const inflate = 80` — the trail bounding box is inflated by this margin. -/
def bboxInflate : ℚ := 80

/-- The candidate prefilter of `checkSwipeCollisions`: indices of fruits that
are not sliced and whose bounding box overlaps the inflated trail box
(`b.right < minX || b.left > maxX || b.bottom < minY || b.top > maxY`
rejects). -/
def candidateIndices (fruits : List Fruit) (minX minY maxX maxY : ℚ) : List ℕ :=
  (List.range fruits.length).filter fun i =>
    match fruits[i]? with
    | none => false
    | some f =>
      !f.sliced &&
      !(decide (f.x + f.radius < minX) || decide (f.x - f.radius > maxX) ||
        decide (f.y + f.radius < minY) || decide (f.y - f.radius > maxY))

/-- The registry effect of a resolved hit: call `fruit.slice()` (which
registers the slice and, for a bomb, triggers game over), write the sliced
fruit back at its index, and on a fruit (non-bomb) result update the
combo-sound bookkeeping of `handleFruitSlice`.  Bomb-explosion visuals are
collaborator-owned side effects. -/
def resolveHit (now : ℚ) (date : ℤ) (gs : GameState) (i : ℕ) : GameState :=
  match gs.fruits[i]? with
  | none => gs
  | some f =>
    let (res, f2, gs2) := f.slice gs now date
    let gs2 := { gs2 with fruits := gs2.fruits.set i f2 }
    match res with
    | none => gs2
    | some r =>
      match r.kind with
      | EntityKind.bomb => gs2
      | EntityKind.fruit =>
        match gs2.getDisplayCombo with
        | some c =>
          if c > gs2.lastComboSoundCount then
            { gs2 with lastComboSoundCount := c }
          else gs2
        | none => gs2

/-- Source `CollisionDetector.handleFruitCollision(fruit, ...)`: mark the fruit
processed for this frame, then apply the registry effect of the hit; the
invocation is recorded in the log (most recent first). -/
def handleFruitCollision (now : ℚ) (date : ℤ) (gs : GameState)
    (processed log : List ℕ) (i : ℕ) : GameState × List ℕ × List ℕ :=
  (resolveHit now date gs i, i :: processed, i :: log)

/-- Source `CollisionDetector.checkLineSegmentCollisionsForCandidates(x1,y1,x2,y2,
candidates)`: test one segment against each candidate in order, skipping
fruits already sliced or already processed this frame, and resolving the
first intersection per fruit. -/
def checkSegmentCandidates (now : ℚ) (date : ℤ) (x1 y1 x2 y2 : ℚ) :
    List ℕ → GameState × List ℕ × List ℕ → GameState × List ℕ × List ℕ
  | [], st => st
  | i :: rest, (gs, processed, log) =>
    let st :=
      match gs.fruits[i]? with
      | none => (gs, processed, log)
      | some f =>
        if f.sliced || processed.contains i then (gs, processed, log)
        else if f.intersectsLine x1 y1 x2 y2 then
          handleFruitCollision now date gs processed log i
        else (gs, processed, log)
    checkSegmentCandidates now date x1 y1 x2 y2 rest st

/-- Source `CollisionDetector.checkSwipeCollisions()`: restrict to the last K
segments, build the inflated bounding box over the tested trail points,
prefilter candidates, then test each of those segments against the
candidates. -/
def checkSwipeCollisions (now : ℚ) (date : ℤ) (gs : GameState)
    (processed log : List ℕ) : GameState × List ℕ × List ℕ :=
  let pts := gs.swipePoints
  if pts.length < 2 then (gs, processed, log)
  else
    let start := pts.length - (segmentWindowK + 1)
    match pts.drop start with
    | [] => (gs, processed, log)
    | p0 :: rest =>
      let minX := (rest.foldl (fun a q => min a q.x) p0.x) - bboxInflate
      let maxX := (rest.foldl (fun a q => max a q.x) p0.x) + bboxInflate
      let minY := (rest.foldl (fun a q => min a q.y) p0.y) - bboxInflate
      let maxY := (rest.foldl (fun a q => max a q.y) p0.y) + bboxInflate
      let candidates := candidateIndices gs.fruits minX minY maxX maxY
      let segments := List.zip (p0 :: rest) rest
      segments.foldl
        (fun st pq =>
          checkSegmentCandidates now date pq.1.x pq.1.y pq.2.x pq.2.y
            candidates st)
        (gs, processed, log)

/-- Source `CollisionDetector.update()`: clear the per-frame processed set, early
out unless an active swipe with at least two trail points is in progress,
then run `checkSwipeCollisions`.  `processedPrev` is whatever the set held
at the end of the previous frame; the clear makes the run independent of
it. -/
def collisionUpdate (now : ℚ) (date : ℤ) (processedPrev : List ℕ)
    (gs : GameState) : GameState × List ℕ × List ℕ :=
  let processed : List ℕ := []
  if !gs.isSwiping || gs.swipePoints.length < 2 then (gs, processed, [])
  else checkSwipeCollisions now date gs processed []

/-! ## Concrete states used to instantiate theorems -/

/-- The `GameState` constructor: fresh session state, with the persisted
best score and high-score list (read from storage) and `performance.now()`
supplied as arguments. -/
def initialState (bestScore : ℤ) (highScores : List HighScoreEntry)
    (now : ℚ) : GameState :=
  { score := 0
    gameOver := false
    elapsedTime := 0
    fruits := []
    slices := []
    bombExplosions := []
    juiceParticles := []
    wallSplashes := []
    comboSplashes := []
    lastTime := none
    lastSpawnTime := now
    lastSliceTime := 0
    lastSwipeSoundTime := 0
    comboCount := 0
    spawnInterval := INITIAL_SPAWN_INTERVAL
    lastComboSoundCount := 0
    swipePoints := []
    isSwiping := false
    bestScore := bestScore
    highScores := highScores }

/-- A concrete unsliced fruit of radius 30 at the origin. -/
def exFruit : Fruit :=
  { x := 0, y := 0, vx := 0, vy := 0, rotation := 0, rotationSpeed := 0,
    life := 1, maxLife := 1, isAlive := true,
    kind := EntityKind.fruit, emoji := "apple", radius := 30, sliced := false }

/-- A concrete already-sliced fruit. -/
def exSlicedFruit : Fruit :=
  { exFruit with sliced := true }

/-- A concrete fruit whose alive flag is false (e.g. after an explicit
`destroy()`). -/
def exDeadFruit : Fruit :=
  { exFruit with isAlive := false, life := 0 }

/-! ## Claim theorems -/

/-- Claim C9. `reset()` empties every entity collection (fruits, slices, bomb
explosions, juice particles, wall splashes, combo splashes), zeroes the
score, combo counter and elapsed time, and leaves the best score and the
high-score list unchanged. -/
theorem c9_reset_clears_session_state (s : GameState) (now : ℚ) :
    (s.reset now).fruits = [] ∧ (s.reset now).slices = [] ∧
    (s.reset now).bombExplosions = [] ∧ (s.reset now).juiceParticles = [] ∧
    (s.reset now).wallSplashes = [] ∧ (s.reset now).comboSplashes = [] ∧
    (s.reset now).score = 0 ∧ (s.reset now).comboCount = 0 ∧
    (s.reset now).elapsedTime = 0 ∧
    (s.reset now).bestScore = s.bestScore ∧
    (s.reset now).highScores = s.highScores := by
  simp [GameState.reset]

/-- Claim C10. The `sliced` flag is write-once: slicing an already-sliced fruit
returns `null` and leaves the fruit and the registry (score, combo,
game-over flag, everything) unchanged; slicing any fruit leaves it sliced,
so a second resolution of the same entity in the same frame is a no-op — in
particular a bomb triggers game over at most once through this path. -/
theorem c10_slice_write_once (f : Fruit) (gs gs2 : GameState)
    (now now2 : ℚ) (date date2 : ℤ) :
    (f.sliced = true → f.slice gs now date = (none, f, gs)) ∧
    (f.slice gs now date).2.1.sliced = true ∧
    (f.slice gs now date).2.1.slice gs2 now2 date2 =
      (none, (f.slice gs now date).2.1, gs2) := by
  refine ⟨fun h => by simp [Fruit.slice, h], ?_, ?_⟩ <;>
    · unfold Fruit.slice
      rcases hf : f.sliced with _ | _ <;> rcases hk : f.kind with _ | _ <;>
        simp [hf, hk]

/-- Witness for C10 at a concrete sliced fruit. -/
theorem c10_witness :
    exSlicedFruit.slice (initialState 0 [] 0) 0 0 =
      (none, exSlicedFruit, initialState 0 [] 0) :=
  (c10_slice_write_once exSlicedFruit (initialState 0 [] 0)
    (initialState 0 [] 0) 0 0 0 0).1 rfl

/-- Claim C3. `registerSlice()`: a gap strictly below the 800 ms combo window
increments the combo counter, otherwise it resets to 1; the post-increment
combo value is added to the score and the slice timestamp is recorded.
Slices at t = 0, 200, 500 ms from a fresh state yield combo counts 1, 2, 3
and cumulative score 6, and a fourth slice at t = 1500 resets the combo
to 1. -/
theorem c3_registerSlice_combo (s : GameState) (now : ℚ) :
    (now - s.lastSliceTime < COMBO_THRESHOLD →
      (s.registerSlice now).comboCount = s.comboCount + 1 ∧
      (s.registerSlice now).score = s.score + (s.comboCount + 1) ∧
      (s.registerSlice now).lastSliceTime = now) ∧
    (¬ now - s.lastSliceTime < COMBO_THRESHOLD →
      (s.registerSlice now).comboCount = 1 ∧
      (s.registerSlice now).score = s.score + 1 ∧
      (s.registerSlice now).lastSliceTime = now) ∧
    ((((initialState 0 [] 0).registerSlice 0).comboCount = 1 ∧
      ((initialState 0 [] 0).registerSlice 0).score = 1) ∧
     ((((initialState 0 [] 0).registerSlice 0).registerSlice 200).comboCount = 2 ∧
      (((initialState 0 [] 0).registerSlice 0).registerSlice 200).score = 3) ∧
     (((((initialState 0 [] 0).registerSlice 0).registerSlice 200).registerSlice
        500).comboCount = 3 ∧
      ((((initialState 0 [] 0).registerSlice 0).registerSlice 200).registerSlice
        500).score = 6) ∧
     (((((initialState 0 [] 0).registerSlice 0).registerSlice 200).registerSlice
        500).registerSlice 1500).comboCount = 1) := by
  refine ⟨fun h => by simp [GameState.registerSlice, h],
    fun h => by simp [GameState.registerSlice, h], ?_⟩
  norm_num [GameState.registerSlice, initialState, COMBO_THRESHOLD]

/-- Witness for C3: the first slice of the concrete scenario, via the
in-window branch of the theorem. -/
theorem c3_witness :
    ((initialState 0 [] 0).registerSlice 0).comboCount = 0 + 1 :=
  ((c3_registerSlice_combo (initialState 0 [] 0) 0).1
    (by norm_num [initialState, COMBO_THRESHOLD])).1

/-- A fresh session that has scored 5 points: used to exhibit the double
`triggerGameOver` effect. -/
def c5State : GameState :=
  { initialState 0 [] 0 with score := 5 }

/-- Claim C5, counterexample. `triggerGameOver()` is *not* idempotent in
effect: calling it a second time appends a second high-score entry (the
per-session once-only firing is enforced by its callers, not by the method),
so the double application differs from the single one. -/
theorem c5_counterexample :
    ((c5State.triggerGameOver 0).triggerGameOver 0).highScores.length = 2 ∧
    (c5State.triggerGameOver 0).highScores.length = 1 ∧
    (c5State.triggerGameOver 0).triggerGameOver 0 ≠ c5State.triggerGameOver 0 := by
  have h2 : ((c5State.triggerGameOver 0).triggerGameOver 0).highScores.length = 2 := by
    norm_num [c5State, initialState, GameState.triggerGameOver,
      GameState.saveHighScore, List.insertionSort, List.orderedInsert, hsDesc]
  have h1 : (c5State.triggerGameOver 0).highScores.length = 1 := by
    norm_num [c5State, initialState, GameState.triggerGameOver,
      GameState.saveHighScore, List.insertionSort, List.orderedInsert, hsDesc]
  refine ⟨h2, h1, fun h => ?_⟩
  have := congrArg (fun s => s.highScores.length) h
  simp only [h1, h2] at this
  exact absurd this (by norm_num)

/-- Claim C5, amended. Each call of `triggerGameOver()` sets the game-over
flag, raises the best score to the session score when beaten, and appends
one high-score entry (a second call appends a second entry; once-per-session
firing is its callers' responsibility); after every call the high-score list
is sorted descending by score and capped at 10 entries. -/
theorem c5_trigger_game_over_effects (s : GameState) (d : ℤ) :
    (s.triggerGameOver d).gameOver = true ∧
    (s.triggerGameOver d).bestScore = max s.bestScore s.score ∧
    List.Sorted hsDesc (s.triggerGameOver d).highScores ∧
    (s.triggerGameOver d).highScores.length = min (s.highScores.length + 1) 10 ∧
    (s.triggerGameOver d).highScores.length ≤ 10 := by
  refine ⟨rfl, ?_,
    (List.sorted_insertionSort hsDesc _).sublist (List.take_sublist _ _), ?_, ?_⟩
  · show (if s.score > s.bestScore then s.score else s.bestScore) = _
    rcases lt_or_le s.bestScore s.score with h | h
    · simp [h, max_eq_right h.le]
    · simp [not_lt.mpr h, max_eq_left h]
  · show ((List.insertionSort hsDesc (s.highScores ++ [_])).take 10).length = _
    simp [List.length_take, Nat.min_comm]
  · show ((List.insertionSort hsDesc (s.highScores ++ [_])).take 10).length ≤ 10
    simp [List.length_take]

/-- A concrete wall-splash particle whose life has expired. -/
def exWallSplash : Particle :=
  { x := 10, y := 10, vx := 0, vy := 0, rotation := 0, rotationSpeed := 0,
    life := 0, maxLife := WALL_SPLASH_LIFE, isAlive := false,
    kind := ParticleKind.wallSplash }

/-- A concrete juice particle. -/
def exJuice : Particle :=
  { x := 10, y := 10, vx := 0, vy := 0, rotation := 0, rotationSpeed := 0,
    life := JUICE_PARTICLE_LIFE, maxLife := JUICE_PARTICLE_LIFE, isAlive := true,
    kind := ParticleKind.juice }

/-- A concrete slice half. -/
def exSliceHalf : FruitSlice :=
  { x := 10, y := 10, vx := 0, vy := 0, rotation := 0, rotationSpeed := 0,
    life := SLICE_LIFE_DURATION, maxLife := SLICE_LIFE_DURATION, isAlive := true,
    emoji := "apple", halfSide := true, size := 60 }

/-- A concrete combo-text entity. -/
def exComboText : ComboSplash :=
  { x := 400, y := 150, vx := 0, vy := 0, rotation := 0, rotationSpeed := 0,
    life := COMBO_SPLASH_LIFE, maxLife := COMBO_SPLASH_LIFE, isAlive := true,
    text := "Combo 2", scale := 1, targetScale := 3/2, pulseIntensity := 1/10 }

/-- Claim C8. Removal policy is per-variant: a fruit or bomb is removed exactly
when its full circle has passed beyond one of the four sides of the visible
area by the overflow threshold, and its life/alive state plays no part;
slice halves and (juice/explosion) particles remove on life expiry, falling
below, or horizontal overflow; wall splashes are removed only on life
expiry, never by position; combo text is removed only on life expiry, never
by position. -/
theorem c8_removal_policy (f : Fruit) (sl : FruitSlice) (p : Particle)
    (c : ComboSplash) (w h l : ℚ) (a : Bool) :
    (f.shouldRemove w h = true ↔
      (f.x + f.radius < -CANVAS_OVERFLOW_THRESHOLD ∨
       f.x - f.radius > w + CANVAS_OVERFLOW_THRESHOLD ∨
       f.y + f.radius < -CANVAS_OVERFLOW_THRESHOLD ∨
       f.y - f.radius > h + CANVAS_OVERFLOW_THRESHOLD)) ∧
    Fruit.shouldRemove { f with life := l, isAlive := a } w h =
      f.shouldRemove w h ∧
    (sl.shouldRemove w h = true ↔
      (sl.isAlive = false ∨ sl.y > h + CANVAS_OVERFLOW_THRESHOLD ∨
       sl.x < -CANVAS_OVERFLOW_THRESHOLD ∨
       sl.x > w + CANVAS_OVERFLOW_THRESHOLD)) ∧
    (p.kind = ParticleKind.wallSplash →
      (p.shouldRemove w h = true ↔ p.isAlive = false)) ∧
    (p.kind ≠ ParticleKind.wallSplash →
      (p.shouldRemove w h = true ↔
        (p.isAlive = false ∨ p.y > h + CANVAS_OVERFLOW_THRESHOLD ∨
         p.x < -CANVAS_OVERFLOW_THRESHOLD ∨
         p.x > w + CANVAS_OVERFLOW_THRESHOLD))) ∧
    (c.shouldRemove w h = true ↔ c.isAlive = false) := by
  refine ⟨?_, rfl, ?_, fun hk => ?_, fun hk => ?_, ?_⟩
  · simp [Fruit.shouldRemove, isCircleOutsideCanvas, or_assoc]
  · cases hA : sl.isAlive <;> simp [FruitSlice.shouldRemove, hA, or_assoc]
  · cases hA : p.isAlive <;> simp [Particle.shouldRemove, hA, hk]
  · cases hA : p.isAlive <;> simp [Particle.shouldRemove, hA, hk, or_assoc]
  · cases hA : c.isAlive <;> simp [ComboSplash.shouldRemove, hA]

/-- Witness for C8 at concrete entities: an expired wall splash far from any
edge is removed purely by life expiry, and a live juice particle at the same
spot is kept. -/
theorem c8_witness :
    (exWallSplash.shouldRemove 800 600 = true ↔ exWallSplash.isAlive = false) ∧
    (exJuice.shouldRemove 800 600 = true ↔
      (exJuice.isAlive = false ∨ exJuice.y > 600 + CANVAS_OVERFLOW_THRESHOLD ∨
       exJuice.x < -CANVAS_OVERFLOW_THRESHOLD ∨
       exJuice.x > 800 + CANVAS_OVERFLOW_THRESHOLD)) :=
  ⟨(c8_removal_policy exFruit exSliceHalf exWallSplash exComboText 800 600 0
      true).2.2.2.1 rfl,
   (c8_removal_policy exFruit exSliceHalf exJuice exComboText 800 600 0
      true).2.2.2.2.1 (by simp [exJuice])⟩

/-- Claim C1, counterexample. The alive flag is *not* monotone for the
fruit/bomb variant: `Fruit.update` unconditionally restores
`life = maxLife` and `isAlive = true` (the source comments that fruits have
no lifespan), so a fruit whose alive flag is false is revived by its next
update. -/
theorem c1_counterexample :
    exDeadFruit.isAlive = false ∧
    (exDeadFruit.update (1/120)).isAlive = true :=
  ⟨rfl, rfl⟩

/-- Base `GameObject.update` never sets the alive flag back to true. -/
theorem gameObject_update_alive_mono (o : GameObject) (dt : ℚ)
    (h : (o.update dt).isAlive = true) : o.isAlive = true := by
  unfold GameObject.update at h
  dsimp only at h
  split at h
  · split at h <;> simpa using h
  · simpa using h

/-- Claim C1, amended. For the base entity model and the slice-half, particle
and combo-text variants, once the alive flag is false, `update` never sets
it back to true; the flag becomes false exactly at the zero crossing of
life when a positive cap is set, or on an explicit `destroy()`, and a
not-alive entity satisfies the base removal predicate.  The fruit/bomb
variant is the exception: its `update` unconditionally restores life to the
cap and the alive flag to true, so a not-alive fruit is revived by its next
update (fruits are removed by position only, cf. `Fruit.shouldRemove`). -/
theorem c1_alive_monotone_except_fruit (o : GameObject) (sl : FruitSlice)
    (p : Particle) (c : ComboSplash) (f : Fruit) (dt sp w h : ℚ) :
    ((o.update dt).isAlive = true → o.isAlive = true) ∧
    (o.maxLife > 0 → (o.update dt).life ≤ 0 → (o.update dt).isAlive = false) ∧
    o.destroy.isAlive = false ∧
    (o.isAlive = false → o.shouldRemove w h = true) ∧
    ((sl.update dt).isAlive = true → sl.isAlive = true) ∧
    ((p.update dt).isAlive = true → p.isAlive = true) ∧
    ((c.update dt sp).isAlive = true → c.isAlive = true) ∧
    (f.update dt).isAlive = true := by
  refine ⟨gameObject_update_alive_mono o dt, fun hcap hlife => ?_, rfl,
    fun hA => ?_, ?_, ?_, ?_, rfl⟩
  · unfold GameObject.update at hlife ⊢
    dsimp only at hlife ⊢
    rw [if_pos hcap] at hlife ⊢
    split at hlife <;> rename_i hz
    · rw [if_pos hz]
    · exact absurd hlife (by simpa using hz)
  · simp [GameObject.shouldRemove, hA]
  · intro hA
    exact gameObject_update_alive_mono sl.toGameObject dt hA
  · intro hA
    refine gameObject_update_alive_mono p.toGameObject dt ?_
    unfold Particle.update at hA
    cases hk : p.kind <;> rw [hk] at hA <;> simpa using hA
  · intro hA
    exact gameObject_update_alive_mono c.toGameObject dt hA

/-- Witness for C1 (amended) at concrete inputs: a dead wall splash stays
dead under `Particle.update` and is flagged for removal by the base
predicate. -/
theorem c1_witness :
    ((exWallSplash.update (1/120)).isAlive = true →
      exWallSplash.isAlive = true) ∧
    exWallSplash.toGameObject.shouldRemove 800 600 = true :=
  ⟨(c1_alive_monotone_except_fruit exWallSplash.toGameObject exSliceHalf
      exWallSplash exComboText exFruit (1/120) 0 800 600).2.2.2.2.2.1,
   (c1_alive_monotone_except_fruit exWallSplash.toGameObject exSliceHalf
      exWallSplash exComboText exFruit (1/120) 0 800 600).2.2.2.1 rfl⟩

/-- Claim C7. When the spawn accumulator has reached the current
difficulty-derived interval, exactly one entity is appended to the fruit
collection unless the hard cap of 18 concurrent fruits is already reached,
in which case the collection is unchanged; in either case the accumulator
resets to zero.  A forced spawn bypasses the timer but also respects the
cap (and resets the timer). -/
theorem c7_spawn_cap_and_reset (m : SpawnManager) (gs : GameState)
    (eff dt now : ℚ) (nf : Fruit) (hgo : gs.gameOver = false)
    (hreach : m.spawnTimer + dt * 1000 *
        (1 / pressureFactor ((gs.fruits.length : ℚ) * 2 + eff * (1/4))) ≥
      max MIN_SPAWN_INTERVAL
        (m.baseSpawnRate - gs.elapsedTime * DIFFICULTY_INCREASE_RATE)) :
    ((m.update gs eff dt now nf).1.spawnTimer = 0 ∧
     (gs.fruits.length < fruitCap →
       (m.update gs eff dt now nf).2.fruits = gs.fruits ++ [nf]) ∧
     (fruitCap ≤ gs.fruits.length →
       (m.update gs eff dt now nf).2.fruits = gs.fruits)) ∧
    ((m.forceSpawn gs nf).1.spawnTimer = 0 ∧
     (gs.fruits.length < fruitCap →
       (m.forceSpawn gs nf).2.fruits = gs.fruits ++ [nf]) ∧
     (fruitCap ≤ gs.fruits.length →
       (m.forceSpawn gs nf).2.fruits = gs.fruits)) := by
  have hpos : (0 : ℚ) < max MIN_SPAWN_INTERVAL
      (m.baseSpawnRate - gs.elapsedTime * DIFFICULTY_INCREASE_RATE) :=
    lt_of_lt_of_le (by norm_num [MIN_SPAWN_INTERVAL]) (le_max_left _ _)
  have hguard : m.spawnTimer + dt * 1000 *
      (1 / pressureFactor ((gs.fruits.length : ℚ) * 2 + eff * (1/4))) ≥
        max MIN_SPAWN_INTERVAL
          (m.baseSpawnRate - gs.elapsedTime * DIFFICULTY_INCREASE_RATE) ∧
      max MIN_SPAWN_INTERVAL
          (m.baseSpawnRate - gs.elapsedTime * DIFFICULTY_INCREASE_RATE) > 0 :=
    ⟨hreach, hpos⟩
  have hupd : m.update gs eff dt now nf =
      ({ m with
          spawnTimer := 0
          lastSpawnTime := now
          currentSpawnRate := (max MIN_SPAWN_INTERVAL
            (m.baseSpawnRate - gs.elapsedTime * DIFFICULTY_INCREASE_RATE)) },
        SpawnManager.spawnItem
          { gs with spawnInterval := (max MIN_SPAWN_INTERVAL
              (m.baseSpawnRate - gs.elapsedTime * DIFFICULTY_INCREASE_RATE)) }
          nf) := by
    unfold SpawnManager.update SpawnManager.updateDifficulty
    rw [if_neg (by simp [hgo])]
    dsimp only
    rw [if_pos hguard]
  refine ⟨⟨?_, fun hlt => ?_, fun hge => ?_⟩, ⟨rfl, fun hlt => ?_, fun hge => ?_⟩⟩
  · rw [hupd]
  · rw [hupd]
    show (SpawnManager.spawnItem _ nf).fruits = _
    simp [SpawnManager.spawnItem, not_le.mpr hlt]
  · rw [hupd]
    show (SpawnManager.spawnItem _ nf).fruits = _
    simp [SpawnManager.spawnItem, hge]
  · simp [SpawnManager.forceSpawn, SpawnManager.spawnItem, not_le.mpr hlt]
  · simp [SpawnManager.forceSpawn, SpawnManager.spawnItem, hge]

/-- A concrete spawn-manager state whose timer is far past the interval. -/
def exSpawnManager : SpawnManager :=
  { lastSpawnTime := 0, spawnTimer := 2000,
    baseSpawnRate := INITIAL_SPAWN_INTERVAL,
    currentSpawnRate := INITIAL_SPAWN_INTERVAL }

/-- Witness for C7: from a fresh empty state with the timer past the
interval, the update appends exactly the one new fruit. -/
theorem c7_witness :
    (exSpawnManager.update (initialState 0 [] 0) 0 0 0 exFruit).2.fruits =
      (initialState 0 [] 0).fruits ++ [exFruit] :=
  ((c7_spawn_cap_and_reset exSpawnManager (initialState 0 [] 0) 0 0 0 exFruit
      rfl
      (by norm_num [initialState, pressureFactor, exSpawnManager,
        MIN_SPAWN_INTERVAL, INITIAL_SPAWN_INTERVAL,
        DIFFICULTY_INCREASE_RATE])).1).2.1
    (by norm_num [initialState, fruitCap])

/-- The `while (accumulator >= step && iterations < max)` loop consumes one
`fixedDelta` per iteration, never runs more than its budget, and stops only
at the budget or once the remainder is below one step. -/
theorem stepLoop_spec (fuel : ℕ) (acc : ℚ) :
    (stepLoop fuel acc).2 ≤ fuel ∧
    (stepLoop fuel acc).1 = acc - (stepLoop fuel acc).2 * fixedDelta ∧
    ((stepLoop fuel acc).2 = fuel ∨ (stepLoop fuel acc).1 < fixedDelta) := by
  induction fuel generalizing acc with
  | zero => simp [stepLoop]
  | succ n ih =>
    rcases le_or_lt fixedDelta acc with hge | hlt
    · obtain ⟨h1, h2, h3⟩ := ih (acc - fixedDelta)
      simp only [stepLoop, if_pos hge]
      refine ⟨Nat.succ_le_succ h1, ?_, ?_⟩
      · rw [h2]; push_cast; ring
      · rcases h3 with h3 | h3
        · exact Or.inl (by rw [h3])
        · exact Or.inr h3
    · simp [stepLoop, not_le.mpr hlt, hlt]

/-- Claim C6. Each driving callback of the main loop (when not paused): the
first callback after start/resume only records the time baseline and
contributes no delta (no update, no render, accumulator untouched);
otherwise the wall-clock delta is clamped to at most 1/15 s and added to
the accumulator, at most 8 fixed steps of 1/120 s each are consumed from
the accumulator (stopping earlier only once the accumulator is below one
step), and rendering happens exactly once after the step loop regardless of
how many fixed steps ran. -/
theorem c6_fixed_timestep_loop (e : GameEngine) (ts last : ℚ)
    (hp : e.isPaused = false) :
    (e.lastFrameTime = none →
      e.gameLoop ts = ({ e with lastFrameTime := some ts }, 0, 0)) ∧
    (e.lastFrameTime = some last →
      (e.gameLoop ts).2.2 = 1 ∧
      (e.gameLoop ts).2.1 ≤ maxIterations ∧
      (e.gameLoop ts).1.accumulator =
        e.accumulator + min ((ts - last) / 1000) (1/15) -
          (e.gameLoop ts).2.1 * fixedDelta ∧
      ((e.gameLoop ts).2.1 = maxIterations ∨
        (e.gameLoop ts).1.accumulator < fixedDelta) ∧
      (e.gameLoop ts).1.lastFrameTime = some ts) := by
  constructor
  · intro h
    simp [GameEngine.gameLoop, hp, h]
  · intro h
    obtain ⟨h1, h2, h3⟩ :=
      stepLoop_spec maxIterations (e.accumulator + min ((ts - last) / 1000) (1/15))
    simp only [GameEngine.gameLoop, hp, Bool.false_eq_true, if_false, h]
    exact ⟨trivial, h1, h2, h3, trivial⟩

/-- A concrete engine state mid-session. -/
def exEngine : GameEngine :=
  { isRunning := true, isPaused := false, lastFrameTime := some 0,
    accumulator := 0, frameCount := 0 }

/-- Witness for C6: a 100 ms frame gap is clamped to 1/15 s, which is
consumed by exactly the 8-iteration cap, and the callback renders once. -/
theorem c6_witness :
    (exEngine.gameLoop 100).2.2 = 1 ∧
    (exEngine.gameLoop 100).2.1 ≤ maxIterations :=
  ⟨((c6_fixed_timestep_loop exEngine 100 0 rfl).2 rfl).1,
   ((c6_fixed_timestep_loop exEngine 100 0 rfl).2 rfl).2.1⟩

/-- The per-frame deduplication invariant of a collision run: the resolution
log has no duplicates, and every logged fruit index is in the processed
set. -/
def ProcInv (st : GameState × List ℕ × List ℕ) : Prop :=
  st.2.2.Nodup ∧ ∀ i ∈ st.2.2, i ∈ st.2.1

/-- Resolving a hit on a fruit not yet in the processed set preserves the
deduplication invariant. -/
theorem procInv_handle (now : ℚ) (date : ℤ) (gs : GameState)
    (processed log : List ℕ) (i : ℕ) (hi : i ∉ processed)
    (h : ProcInv (gs, processed, log)) :
    ProcInv (handleFruitCollision now date gs processed log i) := by
  refine ⟨List.nodup_cons.mpr ⟨fun hm => hi (h.2 i hm), h.1⟩, ?_⟩
  intro j hj
  rcases List.mem_cons.mp hj with rfl | hj
  · exact List.mem_cons_self _ _
  · exact List.mem_cons_of_mem _ (h.2 j hj)

/-- One segment's candidate sweep preserves the deduplication invariant. -/
theorem procInv_checkSegmentCandidates (now : ℚ) (date : ℤ)
    (x1 y1 x2 y2 : ℚ) :
    ∀ (cands : List ℕ) (st : GameState × List ℕ × List ℕ), ProcInv st →
      ProcInv (checkSegmentCandidates now date x1 y1 x2 y2 cands st)
  | [], _, h => h
  | i :: rest, (gs, processed, log), h => by
    simp only [checkSegmentCandidates]
    refine procInv_checkSegmentCandidates now date x1 y1 x2 y2 rest _ ?_
    cases hf : gs.fruits[i]? with
    | none => exact h
    | some f =>
      dsimp only
      by_cases hs : (f.sliced || processed.contains i) = true
      · rw [if_pos hs]
        exact h
      · rw [if_neg hs]
        by_cases hint : f.intersectsLine x1 y1 x2 y2 = true
        · rw [if_pos hint]
          refine procInv_handle now date gs processed log i (fun hmem => ?_) h
          exact hs (by simp only [Bool.or_eq_true]
                       exact Or.inr (List.elem_eq_true_of_mem hmem))
        · rw [if_neg hint]
          exact h

/-- The fold over the tested trail segments preserves the deduplication
invariant. -/
theorem procInv_foldSegments (now : ℚ) (date : ℤ) (cands : List ℕ) :
    ∀ (segs : List (SwipePoint × SwipePoint))
      (st : GameState × List ℕ × List ℕ), ProcInv st →
      ProcInv (segs.foldl
        (fun st pq =>
          checkSegmentCandidates now date pq.1.x pq.1.y pq.2.x pq.2.y cands st)
        st)
  | [], _, h => h
  | pq :: rest, st, h =>
    procInv_foldSegments now date cands rest _
      (procInv_checkSegmentCandidates now date pq.1.x pq.1.y pq.2.x pq.2.y
        cands st h)

/-- Source `checkSwipeCollisions` preserves the deduplication invariant. -/
theorem procInv_checkSwipeCollisions (now : ℚ) (date : ℤ) (gs : GameState)
    (processed log : List ℕ) (h : ProcInv (gs, processed, log)) :
    ProcInv (checkSwipeCollisions now date gs processed log) := by
  unfold checkSwipeCollisions
  dsimp only
  split
  · exact h
  · split
    · exact h
    · exact procInv_foldSegments now date _ _ _ h

/-- A state mid-swipe: one unsliced fruit of radius 30 at the origin, and a
three-point trail whose two segments both cross that fruit. -/
def exSwipeState : GameState :=
  { initialState 0 [] 0 with
    isSwiping := true
    fruits := [exFruit]
    swipePoints := [⟨-50, 0, 0⟩, ⟨50, 0, 16⟩, ⟨-50, 1, 33⟩] }

/-- Claim C2. Within one frame the collision pipeline resolves any given fruit
at most once (the resolution log is duplicate-free for every state), the
per-frame processed set is cleared at the start of the update so the run is
independent of whatever the set held after the previous frame, and on the
concrete mid-swipe state whose two tested segments both cross the same
fruit, the fruit is resolved exactly once: one log entry and exactly one
point scored. -/
theorem c2_at_most_one_resolution_per_frame (now : ℚ) (date : ℤ)
    (prev : List ℕ) (gs : GameState) :
    (collisionUpdate now date prev gs).2.2.Nodup ∧
    collisionUpdate now date prev gs = collisionUpdate now date [] gs ∧
    (collisionUpdate 1000 0 [] exSwipeState).2.2 = [0] ∧
    (collisionUpdate 1000 0 [] exSwipeState).1.score = 1 := by
  refine ⟨?_, rfl, ?_, ?_⟩
  · unfold collisionUpdate
    dsimp only
    split
    · exact List.nodup_nil
    · exact (procInv_checkSwipeCollisions now date gs [] []
        ⟨List.nodup_nil, by simp⟩).1
  · norm_num [collisionUpdate, checkSwipeCollisions, candidateIndices,
      checkSegmentCandidates, handleFruitCollision, resolveHit, Fruit.slice,
      GameState.registerSlice, GameState.getDisplayCombo, Fruit.intersectsLine,
      lineIntersectsCircle, exSwipeState, initialState, exFruit,
      segmentWindowK, bboxInflate, COMBO_THRESHOLD, List.range_succ]
  · norm_num [collisionUpdate, checkSwipeCollisions, candidateIndices,
      checkSegmentCandidates, handleFruitCollision, resolveHit, Fruit.slice,
      GameState.registerSlice, GameState.getDisplayCombo, Fruit.intersectsLine,
      lineIntersectsCircle, exSwipeState, initialState, exFruit,
      segmentWindowK, bboxInflate, COMBO_THRESHOLD, List.range_succ]

/-- Minimising the quadratic `A·t² − 2·B·t + C` (with `A > 0`) over `[0,1]`:
the clamped vertex `max 0 (min 1 (B/A))` attains the minimum. -/
theorem quadratic_clamped_min (A B C t : ℚ) (hA : 0 < A)
    (ht0 : 0 ≤ t) (ht1 : t ≤ 1) :
    A * (max 0 (min 1 (B / A))) ^ 2 - 2 * B * (max 0 (min 1 (B / A))) + C ≤
      A * t ^ 2 - 2 * B * t + C := by
  rcases le_or_lt B 0 with hB | hB
  · have hBA : B / A ≤ 0 := div_nonpos_of_nonpos_of_nonneg hB hA.le
    rw [min_eq_right (hBA.trans zero_le_one), max_eq_left hBA]
    nlinarith [mul_nonneg hA.le (sq_nonneg t), mul_nonneg (neg_nonneg.2 hB) ht0]
  · rcases le_or_lt A B with hAB | hAB
    · have hBA : (1 : ℚ) ≤ B / A := (one_le_div hA).mpr hAB
      rw [min_eq_left hBA, max_eq_right zero_le_one]
      have hkey : (0 : ℚ) ≤ 2 * B - A * (t + 1) := by
        nlinarith [mul_nonneg hA.le (sub_nonneg.2 ht1)]
      nlinarith [mul_nonneg (sub_nonneg.2 ht1) hkey]
    · have h0 : 0 ≤ B / A := (div_pos hB hA).le
      have h1 : B / A ≤ 1 := ((div_lt_one hA).mpr hAB).le
      rw [min_eq_right h1, max_eq_right h0]
      have hBu : B = B / A * A := (div_mul_cancel₀ B hA.ne').symm
      generalize B / A = u at hBu ⊢
      subst hBu
      nlinarith [mul_nonneg hA.le (sq_nonneg (t - u))]

/-- The clamped projection parameter lies in `[0,1]`. -/
theorem closestT_mem_unit (x1 y1 x2 y2 cx cy : ℚ) :
    0 ≤ closestT x1 y1 x2 y2 cx cy ∧ closestT x1 y1 x2 y2 cx cy ≤ 1 :=
  ⟨le_max_left 0 _, max_le zero_le_one (min_le_left 1 _)⟩

/-- For a nondegenerate segment the clamped projection point is the closest
point of the segment to the circle centre. -/
theorem closestT_minimizes (x1 y1 x2 y2 cx cy : ℚ)
    (hA : (x2 - x1) * (x2 - x1) + (y2 - y1) * (y2 - y1) ≠ 0)
    (t : ℚ) (ht0 : 0 ≤ t) (ht1 : t ≤ 1) :
    segDistSq x1 y1 x2 y2 cx cy (closestT x1 y1 x2 y2 cx cy) ≤
      segDistSq x1 y1 x2 y2 cx cy t := by
  have hApos : 0 < (x2 - x1) * (x2 - x1) + (y2 - y1) * (y2 - y1) :=
    lt_of_le_of_ne
      (add_nonneg (mul_self_nonneg _) (mul_self_nonneg _)) (Ne.symm hA)
  have hquad : ∀ u : ℚ, segDistSq x1 y1 x2 y2 cx cy u =
      ((x2 - x1) * (x2 - x1) + (y2 - y1) * (y2 - y1)) * u ^ 2 -
        2 * ((cx - x1) * (x2 - x1) + (cy - y1) * (y2 - y1)) * u +
        ((cx - x1) ^ 2 + (cy - y1) ^ 2) := by
    intro u
    unfold segDistSq
    ring
  rw [hquad, hquad]
  exact quadratic_clamped_min _ _ _ t hApos ht0 ht1

/-- For a nondegenerate segment, `lineIntersectsCircle` computes the clamped
projection and compares the distance of the resulting closest point with the
radius, boundary inclusive. -/
theorem lineIntersectsCircle_nondegenerate (x1 y1 x2 y2 cx cy radius : ℚ)
    (hA : (x2 - x1) * (x2 - x1) + (y2 - y1) * (y2 - y1) ≠ 0) :
    lineIntersectsCircle x1 y1 x2 y2 cx cy radius = true ↔
      (0 ≤ radius ∧
        segDistSq x1 y1 x2 y2 cx cy (closestT x1 y1 x2 y2 cx cy) ≤
          radius ^ 2) := by
  unfold lineIntersectsCircle
  rw [if_neg hA]
  dsimp only
  rw [decide_eq_true_iff]
  exact Iff.rfl

/-- Claim C4, counterexample. The claim fails for a degenerate segment: both
endpoints of the zero-length segment `(0,0)-(0,0)` coincide with the centre
of the circle of radius 1 (the closest approach distance is 0, as the second
conjunct shows for every parameter on the segment), yet the test reports no
intersection, because the JavaScript projection divides `0/0 = NaN` and the
final `NaN <= radius` comparison is false. -/
theorem c4_counterexample :
    lineIntersectsCircle 0 0 0 0 0 0 1 = false ∧
    ∀ t : ℚ, segDistSq 0 0 0 0 0 0 t = 0 := by
  constructor
  · norm_num [lineIntersectsCircle]
  · intro t
    norm_num [segDistSq]

/-- Claim C4, amended. For every *nondegenerate* segment (distinct endpoints)
and every circle of nonnegative radius, the test computes the closest point
of the segment by projecting the centre onto the segment's direction with
the parameter clamped to `[0,1]`, and reports intersection exactly when that
distance is at most the radius — equivalently, exactly when some point of
the segment is within the radius.  In particular a nondegenerate segment
through the centre always reports intersection, and a closest approach
exactly equal to the radius reports intersection (boundary inclusive).
Zero-length segments always report no intersection (`NaN` comparison). -/
theorem c4_segment_circle_test (x1 y1 x2 y2 cx cy radius : ℚ)
    (hA : (x2 - x1) * (x2 - x1) + (y2 - y1) * (y2 - y1) ≠ 0)
    (hr : 0 ≤ radius) :
    (lineIntersectsCircle x1 y1 x2 y2 cx cy radius = true ↔
      segDistSq x1 y1 x2 y2 cx cy (closestT x1 y1 x2 y2 cx cy) ≤ radius ^ 2) ∧
    (lineIntersectsCircle x1 y1 x2 y2 cx cy radius = true ↔
      ∃ t : ℚ, 0 ≤ t ∧ t ≤ 1 ∧ segDistSq x1 y1 x2 y2 cx cy t ≤ radius ^ 2) ∧
    (∀ t : ℚ, 0 ≤ t → t ≤ 1 →
      x1 + t * (x2 - x1) = cx → y1 + t * (y2 - y1) = cy →
      lineIntersectsCircle x1 y1 x2 y2 cx cy radius = true) ∧
    (segDistSq x1 y1 x2 y2 cx cy (closestT x1 y1 x2 y2 cx cy) = radius ^ 2 →
      lineIntersectsCircle x1 y1 x2 y2 cx cy radius = true) := by
  have hchar := lineIntersectsCircle_nondegenerate x1 y1 x2 y2 cx cy radius hA
  have hiff : lineIntersectsCircle x1 y1 x2 y2 cx cy radius = true ↔
      segDistSq x1 y1 x2 y2 cx cy (closestT x1 y1 x2 y2 cx cy) ≤ radius ^ 2 :=
    ⟨fun h => (hchar.mp h).2, fun h => hchar.mpr ⟨hr, h⟩⟩
  refine ⟨hiff, ⟨fun h => ?_, fun ⟨t, ht0, ht1, hle⟩ => ?_⟩, fun t ht0 ht1 hx hy => ?_, fun h => ?_⟩
  · obtain ⟨h0, h1⟩ := closestT_mem_unit x1 y1 x2 y2 cx cy
    exact ⟨closestT x1 y1 x2 y2 cx cy, h0, h1, hiff.mp h⟩
  · exact hiff.mpr
      ((closestT_minimizes x1 y1 x2 y2 cx cy hA t ht0 ht1).trans hle)
  · refine hiff.mpr
      ((closestT_minimizes x1 y1 x2 y2 cx cy hA t ht0 ht1).trans ?_)
    have : segDistSq x1 y1 x2 y2 cx cy t = 0 := by
      unfold segDistSq
      rw [sub_eq_zero.mpr hx, sub_eq_zero.mpr hy]
      norm_num
    rw [this]
    positivity
  · exact hiff.mpr h.le

/-- Witness for C4 at a concrete input: the horizontal segment
`(0,0)-(10,0)` passes through the centre `(5,0)` of a circle of radius 3
(at parameter `t = 1/2`) and the test reports intersection. -/
theorem c4_witness :
    lineIntersectsCircle 0 0 10 0 5 0 3 = true :=
  (c4_segment_circle_test 0 0 10 0 5 0 3 (by norm_num) (by norm_num)).2.2.1
    (1/2) (by norm_num) (by norm_num) (by norm_num) (by norm_num)

end FruitNinja
